import Mathlib

/-
Shallow embedding of the GATT client core of the blatann repository:
- src/blatann/gatt/gattc.py   (GattcCharacteristic, GattcService, GattcDatabase)
- src/blatann/bt_sig/uuids.py (Bluetooth SIG UUID constants)

Supporting types that live in files of the repository not present under src/
(blatann/uuid.py, blatann/gatt.py, blatann/event_type.py) are modelled from
the specification and are marked as such in their doc comments.

Conventions of the embedding:
- Python byte sequences are `List Nat` (each entry one byte).
- Notification handlers are identified by `Nat` ids; an EventSource handler
  list is the ordered `List Nat` of registered handler ids.
- Methods that, in Python, perform transport I/O return the ordered list of
  transport-visible `Action`s they emit, paired with the updated object
  state.  A raised Python exception is an `Except.error`.
- `GattcError.invalidOperation` embeds blatann.exceptions.InvalidOperationException;
  `GattcError.noneTypeError` embeds the Python AttributeError raised by
  calling a method on `None`.
-/

namespace Blatann

/-- Modelled from the spec (blatann/uuid.py is not under src/): a Uuid is a
16-bit or 128-bit identifier carrying an optional human-readable description;
equality is defined by normalized numeric value, where a 16-bit UUID is
expanded with the Bluetooth base UUID 00000000-0000-1000-8000-00805F9B34FB. -/
inductive Uuid where
  | uuid16 (value : Nat) (descr : Option String)
  | uuid128 (value : Nat) (descr : Option String)
deriving DecidableEq

/-- The 128-bit Bluetooth base UUID 00000000-0000-1000-8000-00805F9B34FB
as a natural number. -/
def uuid_base : Nat := 0x1000800000805F9B34FB

/-- Modelled from the spec: the normalized 128-bit numeric value of a Uuid.
A 16-bit UUID `x` occupies bits 96..111 of the base UUID. -/
def Uuid.normalized : Uuid → Nat
  | .uuid16 v _ => uuid_base + v * 2 ^ 96
  | .uuid128 v _ => v

/-- Modelled from the spec: semantic UUID equality by normalized numeric
value; the description plays no part. -/
def uuid_eq (a b : Uuid) : Bool := decide (a.normalized = b.normalized)

/-- Modelled from the spec (blatann/gatt.py is not under src/):
SubscriptionState is the enum {NOT_SUBSCRIBED, NOTIFY, INDICATION}. -/
inductive SubscriptionState where
  | NOT_SUBSCRIBED
  | NOTIFY
  | INDICATION
deriving DecidableEq

/-- Modelled from the spec: the 2-byte little-endian CCCD buffer for a
subscription state (NOTIFY writes [0x01, 0x00], INDICATION writes
[0x02, 0x00]). -/
def SubscriptionState.to_buffer : SubscriptionState → List Nat
  | .NOT_SUBSCRIBED => [0, 0]
  | .NOTIFY => [1, 0]
  | .INDICATION => [2, 0]

/-- Modelled from the spec: decoding a CCCD buffer back to a subscription
state; a buffer that is not one of the three encodings fails to decode
(Python raises ValueError). -/
def SubscriptionState.from_buffer : List Nat → Option SubscriptionState
  | [0, 0] => some .NOT_SUBSCRIBED
  | [1, 0] => some .NOTIFY
  | [2, 0] => some .INDICATION
  | _ => none

/-- The nRF BLE GATT status code of a completed operation; `0` is success
(nrf_types.BLEGattStatusCode.success). -/
def BLEGattStatusCode.success : Nat := 0

/-- gattc.py line 295: nrf_events.BLEGattHVXType distinguishes handle-value
notifications from indications. -/
inductive BLEGattHVXType where
  | notification
  | indication
deriving DecidableEq

/-- Embeds blatann.gatt.gattc_attribute.GattcAttribute as the data the core
reads from it: its UUID, its handle and its cached value. -/
structure GattcAttribute where
  uuid : Uuid
  handle : Nat
  value : List Nat
deriving DecidableEq

/-- Embeds gatt.CharacteristicProperties: the boolean capability flags fixed
at discovery time. -/
structure CharacteristicProperties where
  read : Bool
  write : Bool
  write_no_response : Bool
  notify : Bool
  indicate : Bool
deriving DecidableEq

/-- Errors raised synchronously by the characteristic methods:
`invalidOperation` is blatann's InvalidOperationException, `noneTypeError` is
the Python AttributeError from dereferencing a `None` attribute. -/
inductive GattcError where
  | invalidOperation
  | noneTypeError
deriving DecidableEq

/-- A transport-visible action emitted by a characteristic method, in
program order:
- `transport_write h d r`: a write of data `d` to attribute handle `h`,
  with response iff `r` (GattcAttribute.write via the read/write manager);
- `transport_read h`: a read of attribute handle `h`;
- `hv_confirm c h`: ble_gattc_hv_confirm(conn_handle c, attr_handle h);
- `invoke_handler i d b`: registered handler `i` invoked with value `d` and
  is-indication flag `b`. -/
inductive Action where
  | transport_write (attr_handle : Nat) (data : List Nat) (with_response : Bool)
  | transport_read (attr_handle : Nat)
  | hv_confirm (conn_handle : Nat) (attr_handle : Nat)
  | invoke_handler (handler : Nat) (data : List Nat) (is_indication : Bool)
deriving DecidableEq

/-- Embeds gattc.GattcCharacteristic: properties, the value attribute, the
optional CCCD attribute, the full descriptor attribute list, the confirmed
subscription state (gatt.Characteristic.cccd_state), the ordered handler list
of the On Notification EventSource, and the peer connection handle. -/
structure GattcCharacteristic where
  uuid : Uuid
  properties : CharacteristicProperties
  conn_handle : Nat
  decl_attr : GattcAttribute
  value_attr : GattcAttribute
  cccd_attr : Option GattcAttribute
  attributes : List GattcAttribute
  cccd_state : SubscriptionState
  notification_handlers : List Nat
deriving DecidableEq

namespace GattcCharacteristic

/-- gattc.py lines 68-73: the characteristic is readable iff the read
property flag is set. -/
def readable (c : GattcCharacteristic) : Bool := c.properties.read

/-- gattc.py lines 75-80: the characteristic is writable iff the write
property flag is set. -/
def writable (c : GattcCharacteristic) : Bool := c.properties.write

/-- gattc.py lines 82-87: write commands without response are accepted iff
the write_no_response property flag is set. -/
def writable_without_response (c : GattcCharacteristic) : Bool :=
  c.properties.write_no_response

/-- gattc.py lines 89-94: subscribable iff the notify or indicate property
flag is set. -/
def subscribable (c : GattcCharacteristic) : Bool :=
  c.properties.notify || c.properties.indicate

/-- gattc.py lines 96-101: subscribed iff cccd_state is not NOT_SUBSCRIBED. -/
def subscribed (c : GattcCharacteristic) : Bool :=
  decide (c.cccd_state ≠ SubscriptionState.NOT_SUBSCRIBED)

/-- gattc.py lines 147-171, GattcCharacteristic.subscribe: raises
InvalidOperationException when not subscribable; otherwise selects
INDICATION when (prefer_indications and indicate) or not notify, else
NOTIFY; registers the handler on the notification EventSource; then writes
the encoded state to the CCCD attribute (an AttributeError when the CCCD
attribute is None).  Returns the updated object state (reflecting all
mutations made before any exception) and the emitted actions or error. -/
def subscribe (c : GattcCharacteristic) (on_notification_handler : Nat)
    (prefer_indications : Bool) :
    GattcCharacteristic × Except GattcError (List Action) :=
  if !c.subscribable then
    (c, .error .invalidOperation)
  else
    let value :=
      if prefer_indications && c.properties.indicate || !c.properties.notify then
        SubscriptionState.INDICATION
      else
        SubscriptionState.NOTIFY
    let c1 := { c with
      notification_handlers := c.notification_handlers ++ [on_notification_handler] }
    match c.cccd_attr with
    | none => (c1, .error .noneTypeError)
    | some cccd =>
      (c1, .ok [Action.transport_write cccd.handle value.to_buffer true])

/-- gattc.py lines 173-189, GattcCharacteristic.unsubscribe: raises
InvalidOperationException when not subscribable; otherwise writes the
NOT_SUBSCRIBED encoding to the CCCD attribute (an AttributeError when the
CCCD attribute is None, in which case the handler list is left untouched
because the write line precedes clear_handlers), then clears all
notification handlers. -/
def unsubscribe (c : GattcCharacteristic) :
    GattcCharacteristic × Except GattcError (List Action) :=
  if !c.subscribable then
    (c, .error .invalidOperation)
  else
    match c.cccd_attr with
    | none => (c, .error .noneTypeError)
    | some cccd =>
      ({ c with notification_handlers := [] },
       .ok [Action.transport_write cccd.handle
              SubscriptionState.NOT_SUBSCRIBED.to_buffer true])

/-- gattc.py lines 191-204, GattcCharacteristic.read: raises
InvalidOperationException when not readable, otherwise issues a transport
read of the value attribute. -/
def read (c : GattcCharacteristic) :
    GattcCharacteristic × Except GattcError (List Action) :=
  if !c.readable then
    (c, .error .invalidOperation)
  else
    (c, .ok [Action.transport_read c.value_attr.handle])

/-- gattc.py lines 206-223, GattcCharacteristic.write: raises
InvalidOperationException when not writable, otherwise issues a
with-response write of the data to the value attribute. -/
def write (c : GattcCharacteristic) (data : List Nat) :
    GattcCharacteristic × Except GattcError (List Action) :=
  if !c.writable then
    (c, .error .invalidOperation)
  else
    (c, .ok [Action.transport_write c.value_attr.handle data true])

/-- gattc.py lines 225-244, GattcCharacteristic.write_without_response:
raises InvalidOperationException when the write_no_response property is not
set, otherwise issues a without-response write of the data to the value
attribute.  No size limit is checked. -/
def write_without_response (c : GattcCharacteristic) (data : List Nat) :
    GattcCharacteristic × Except GattcError (List Action) :=
  if !c.writable_without_response then
    (c, .error .invalidOperation)
  else
    (c, .ok [Action.transport_write c.value_attr.handle data false])

/-- gattc.py lines 246-255, GattcCharacteristic.find_descriptor: linear scan
over the attribute list, returning the first attribute whose UUID equals the
given UUID, None when absent. -/
def find_descriptor (c : GattcCharacteristic) (u : Uuid) : Option GattcAttribute :=
  c.attributes.find? (fun a => uuid_eq a.uuid u)

end GattcCharacteristic

/-- The event arguments delivered to _cccd_write_complete: the operation id,
the value that was written, the BLEGattStatusCode and its reason. -/
structure WriteCompleteArgs where
  id : Nat
  value : List Nat
  status : Nat
  reason : Nat
deriving DecidableEq

/-- gattc.py lines 274-282, GattcCharacteristic._cccd_write_complete: when
the completion status is success, cccd_state is set from the buffer that was
written; on any other status the state is left unchanged.  `none` embeds the
Python ValueError when a success completion carries an undecodable buffer. -/
def GattcCharacteristic.cccd_write_complete (c : GattcCharacteristic)
    (args : WriteCompleteArgs) : Option GattcCharacteristic :=
  if args.status = BLEGattStatusCode.success then
    match SubscriptionState.from_buffer args.value with
    | some s => some { c with cccd_state := s }
    | none => none
  else
    some c

/-- An inbound GattcEvtHvx event: the connection handle, the attribute
handle, the notification/indication type and the data bytes. -/
structure HvxEvent where
  conn_handle : Nat
  attr_handle : Nat
  hvx_type : BLEGattHVXType
  data : List Nat
deriving DecidableEq

/-- gattc.py lines 284-301, GattcCharacteristic._on_indication_notification:
ignores events whose connection handle or attribute handle do not match;
for an indication, sends ble_gattc_hv_confirm first; then updates the value
attribute from the event data and notifies every registered handler, in
registration order, with the updated value and the is-indication flag. -/
def GattcCharacteristic.on_indication_notification (c : GattcCharacteristic)
    (e : HvxEvent) : GattcCharacteristic × List Action :=
  if e.conn_handle ≠ c.conn_handle ∨ e.attr_handle ≠ c.value_attr.handle then
    (c, [])
  else
    let is_ind := e.hvx_type = BLEGattHVXType.indication
    let confirms :=
      if is_ind then [Action.hv_confirm e.conn_handle e.attr_handle] else []
    let c1 := { c with value_attr := { c.value_attr with value := e.data } }
    (c1, confirms ++ c.notification_handlers.map
      (fun h => Action.invoke_handler h c1.value_attr.value (decide is_ind)))

/-- Embeds gattc.GattcService: UUID, handle range, and the ordered list of
characteristics. -/
structure GattcService where
  uuid : Uuid
  start_handle : Nat
  end_handle : Nat
  characteristics : List GattcCharacteristic
deriving DecidableEq

/-- gattc.py lines 366-375, GattcService.find_characteristic: linear scan
over the service's characteristics, first match by UUID equality, None when
absent. -/
def GattcService.find_characteristic (s : GattcService) (u : Uuid) :
    Option GattcCharacteristic :=
  s.characteristics.find? (fun c => uuid_eq c.uuid u)

/-- Embeds gattc.GattcDatabase: the ordered list of discovered services. -/
structure GattcDatabase where
  services : List GattcService
deriving DecidableEq

/-- gattc.py lines 415-427, GattcDatabase.find_service: linear scan over the
services, first match by UUID equality, None when absent. -/
def GattcDatabase.find_service (db : GattcDatabase) (u : Uuid) :
    Option GattcService :=
  db.services.find? (fun s => uuid_eq s.uuid u)

/-- gattc.py lines 441-450, GattcDatabase.iter_characteristics: all
characteristics of all services, in service order then characteristic
order. -/
def GattcDatabase.iter_characteristics (db : GattcDatabase) :
    List GattcCharacteristic :=
  (db.services.map (fun s => s.characteristics)).flatten

/-- gattc.py lines 428-439, GattcDatabase.find_characteristic: linear scan
over iter_characteristics, first match by UUID equality, None when absent. -/
def GattcDatabase.find_characteristic (db : GattcDatabase) (u : Uuid) :
    Option GattcCharacteristic :=
  db.iter_characteristics.find? (fun c => uuid_eq c.uuid u)

/-- Modelled from the spec: the 128-bit Bluetooth-base expansion of a
16-bit UUID value (the 16-bit value occupies bits 96..111). -/
def expand_with_base (x : Nat) : Nat := uuid_base + x * 2 ^ 96

/-
Concrete fixtures, following the battery-service scenario of the spec:
service UUID 0x180F with one characteristic UUID 0x2A19 (battery level),
properties {read, notify}, handles decl=10, value=11, cccd=12.
-/

/-- The battery-level characteristic UUID 0x2A19
(bt_sig/uuids.py, CharacteristicUuid.battery_level). -/
def battery_uuid : Uuid := Uuid.uuid16 0x2A19 none

/-- The CCCD descriptor UUID 0x2902 (bt_sig/uuids.py, DescriptorUuid.cccd). -/
def cccd_uuid : Uuid := Uuid.uuid16 0x2902 none

/-- The characteristic declaration UUID 0x2803
(bt_sig/uuids.py, DeclarationUuid.characteristic). -/
def char_decl_uuid : Uuid := Uuid.uuid16 0x2803 none

/-- Declaration attribute of the battery-level characteristic, handle 10. -/
def battery_decl_attr : GattcAttribute :=
  { uuid := char_decl_uuid, handle := 10, value := [] }

/-- Value attribute of the battery-level characteristic, handle 11. -/
def battery_value_attr : GattcAttribute :=
  { uuid := battery_uuid, handle := 11, value := [] }

/-- CCCD attribute of the battery-level characteristic, handle 12. -/
def battery_cccd_attr : GattcAttribute :=
  { uuid := cccd_uuid, handle := 12, value := [0, 0] }

/-- Properties {read, notify} of the battery-level characteristic. -/
def battery_props : CharacteristicProperties :=
  { read := true, write := false, write_no_response := false,
    notify := true, indicate := false }

/-- The battery-level characteristic of the spec scenario, freshly
discovered: not subscribed, no handlers registered. -/
def battery_char : GattcCharacteristic :=
  { uuid := battery_uuid
    properties := battery_props
    conn_handle := 0
    decl_attr := battery_decl_attr
    value_attr := battery_value_attr
    cccd_attr := some battery_cccd_attr
    attributes := [battery_decl_attr, battery_value_attr, battery_cccd_attr]
    cccd_state := SubscriptionState.NOT_SUBSCRIBED
    notification_handlers := [] }

/-- A notify-capable characteristic discovered without a CCCD descriptor. -/
def no_cccd_char : GattcCharacteristic :=
  { battery_char with cccd_attr := none }

/-- A read-only characteristic: neither notify nor indicate. -/
def read_only_char : GattcCharacteristic :=
  { battery_char with
    properties :=
      { read := true, write := false, write_no_response := false,
        notify := false, indicate := false } }

/-- An indicate-only characteristic: indicate set, notify clear. -/
def indicate_only_char : GattcCharacteristic :=
  { battery_char with
    properties :=
      { read := true, write := false, write_no_response := false,
        notify := false, indicate := true } }

/-- The battery characteristic with handler 7 registered and a confirmed
NOTIFY subscription. -/
def subscribed_battery_char : GattcCharacteristic :=
  { battery_char with
    cccd_state := SubscriptionState.NOTIFY
    notification_handlers := [7] }

/-- The battery service of the spec scenario, UUID 0x180F. -/
def battery_service : GattcService :=
  { uuid := Uuid.uuid16 0x180F none
    start_handle := 10
    end_handle := 12
    characteristics := [battery_char] }

/-- A database holding exactly the battery service. -/
def battery_db : GattcDatabase := { services := [battery_service] }

/-- An inbound notification event on the battery value attribute,
data [60]. -/
def notif_event : HvxEvent :=
  { conn_handle := 0, attr_handle := 11,
    hvx_type := BLEGattHVXType.notification, data := [60] }

/-- An inbound indication event on the battery value attribute, data [60]. -/
def ind_event : HvxEvent :=
  { conn_handle := 0, attr_handle := 11,
    hvx_type := BLEGattHVXType.indication, data := [60] }

/-- A successful CCCD write completion of the NOTIFY buffer. -/
def args_success_notify : WriteCompleteArgs :=
  { id := 1, value := [1, 0], status := 0, reason := 0 }

/-- A failed CCCD write completion (status 1, a non-success code). -/
def args_failed : WriteCompleteArgs :=
  { id := 1, value := [1, 0], status := 1, reason := 0 }

/-
Theorems
-/

/-- Encoding then decoding a subscription state round-trips. -/
theorem from_buffer_to_buffer (v : SubscriptionState) :
    SubscriptionState.from_buffer v.to_buffer = some v := by
  cases v <;> rfl

/-- A successful find? returns a matching element, and everything that
precedes it in the list does not match. -/
theorem find_q_first {α : Type} (p : α → Bool) :
    ∀ (l : List α) (x : α), l.find? p = some x →
      p x = true ∧ ∃ l₁ l₂, l = l₁ ++ x :: l₂ ∧ ∀ y ∈ l₁, p y = false := by
  intro l
  induction l with
  | nil => intro x hx; simp [List.find?] at hx
  | cons a t ih =>
    intro x hx
    cases hpa : p a with
    | true =>
      simp [List.find?, hpa] at hx
      subst hx
      exact ⟨hpa, [], t, rfl, by simp⟩
    | false =>
      simp [List.find?, hpa] at hx
      obtain ⟨hmatch, l₁, l₂, rfl, hpre⟩ := ih x hx
      refine ⟨hmatch, a :: l₁, l₂, rfl, ?_⟩
      intro y hy
      rcases List.mem_cons.mp hy with hya | hyl
      · subst hya; exact hpa
      · exact hpre y hyl

/-- C1: cccd_state is updated only by a CCCD write completion with success
status, taking the decoded value that was written; subscribe and unsubscribe
never change it at call time; a non-success completion leaves it unchanged;
and `subscribed` holds exactly when cccd_state is not NOT_SUBSCRIBED. -/
theorem claim_C1 (c : GattcCharacteristic) (h : Nat) (p : Bool)
    (args : WriteCompleteArgs) :
    ((c.subscribe h p).1.cccd_state = c.cccd_state)
    ∧ ((c.unsubscribe).1.cccd_state = c.cccd_state)
    ∧ (args.status ≠ BLEGattStatusCode.success →
        c.cccd_write_complete args = some c)
    ∧ (∀ v : SubscriptionState, args.status = BLEGattStatusCode.success →
        args.value = v.to_buffer →
        c.cccd_write_complete args = some { c with cccd_state := v })
    ∧ (c.subscribed = true ↔ c.cccd_state ≠ SubscriptionState.NOT_SUBSCRIBED) := by
  refine ⟨?_, ?_, ?_, ?_, ?_⟩
  · unfold GattcCharacteristic.subscribe
    cases hs : c.subscribable <;> simp
    cases hc : c.cccd_attr <;> simp
  · unfold GattcCharacteristic.unsubscribe
    cases hs : c.subscribable <;> simp
    cases hc : c.cccd_attr <;> simp
  · intro hst
    simp [GattcCharacteristic.cccd_write_complete, hst]
  · intro v hst hval
    simp [GattcCharacteristic.cccd_write_complete, hst, hval,
      from_buffer_to_buffer]
  · simp [GattcCharacteristic.subscribed]

/-- C1 witness: instantiated on the battery characteristic with a failed
completion and with a successful NOTIFY completion. -/
theorem claim_C1_witness :
    (battery_char.subscribe 7 false).1.cccd_state = battery_char.cccd_state
    ∧ battery_char.cccd_write_complete args_failed = some battery_char
    ∧ battery_char.cccd_write_complete args_success_notify =
        some { battery_char with cccd_state := SubscriptionState.NOTIFY } := by
  have h := claim_C1 battery_char 7 false args_failed
  have h2 := claim_C1 battery_char 7 false args_success_notify
  exact ⟨h.1, h.2.2.1 (by decide),
    h2.2.2.2.1 SubscriptionState.NOTIFY (by decide) (by decide)⟩

/-- C2: an inbound attribute-value event with mismatching connection or
attribute handle causes no state change and no actions; a matching event
updates the cached value from the event data and, for an indication,
emits the transport confirmation strictly before every handler invocation,
while a notification emits no confirmation; in both cases every registered
handler is invoked, in order, with the updated value and the is-indication
flag. -/
theorem claim_C2 (c : GattcCharacteristic) (e : HvxEvent) :
    ((e.conn_handle ≠ c.conn_handle ∨ e.attr_handle ≠ c.value_attr.handle) →
      c.on_indication_notification e = (c, []))
    ∧ (e.conn_handle = c.conn_handle → e.attr_handle = c.value_attr.handle →
        ((c.on_indication_notification e).1 =
          { c with value_attr := { c.value_attr with value := e.data } })
        ∧ (e.hvx_type = BLEGattHVXType.indication →
            (c.on_indication_notification e).2 =
              Action.hv_confirm e.conn_handle e.attr_handle ::
                c.notification_handlers.map
                  (fun h => Action.invoke_handler h e.data true))
        ∧ (e.hvx_type = BLEGattHVXType.notification →
            (c.on_indication_notification e).2 =
              c.notification_handlers.map
                (fun h => Action.invoke_handler h e.data false))) := by
  constructor
  · intro hmismatch
    simp [GattcCharacteristic.on_indication_notification, hmismatch]
  · intro hconn hattr
    refine ⟨?_, ?_, ?_⟩
    · simp [GattcCharacteristic.on_indication_notification, hconn, hattr]
    · intro hind
      simp [GattcCharacteristic.on_indication_notification, hconn, hattr, hind]
    · intro hnot
      simp [GattcCharacteristic.on_indication_notification, hconn, hattr, hnot]

/-- C2 witness: the notification event of the spec scenario on the
subscribed battery characteristic invokes handler 7 with value [60] and no
confirmation; the matching indication event confirms first. -/
theorem claim_C2_witness :
    (subscribed_battery_char.on_indication_notification notif_event).2 =
      [Action.invoke_handler 7 [60] false]
    ∧ (subscribed_battery_char.on_indication_notification ind_event).2 =
      [Action.hv_confirm 0 11, Action.invoke_handler 7 [60] true]
    ∧ (subscribed_battery_char.on_indication_notification
        { notif_event with attr_handle := 99 }) = (subscribed_battery_char, []) := by
  have h1 := claim_C2 subscribed_battery_char notif_event
  have h2 := claim_C2 subscribed_battery_char ind_event
  have h3 := claim_C2 subscribed_battery_char { notif_event with attr_handle := 99 }
  exact ⟨(h1.2 (by decide) (by decide)).2.2 (by decide),
    (h2.2 (by decide) (by decide)).2.1 (by decide),
    h3.1 (by decide)⟩

/-- C3: on a subscribable characteristic, subscribe appends the handler to
the notification dispatch list (this happens whether or not the CCCD write
can be issued, since registration precedes the write); when the CCCD
attribute exists the CCCD write is then issued; and every matching
notification or indication event processed on the post-subscribe state
invokes the new handler, even before any write completion. -/
theorem claim_C3 (c : GattcCharacteristic) (h : Nat) (p : Bool)
    (hs : c.subscribable = true) :
    ((c.subscribe h p).1.notification_handlers =
        c.notification_handlers ++ [h])
    ∧ (∀ cccd, c.cccd_attr = some cccd → ∃ d,
        (c.subscribe h p).2 = .ok [Action.transport_write cccd.handle d true])
    ∧ (∀ e : HvxEvent, e.conn_handle = c.conn_handle →
        e.attr_handle = c.value_attr.handle →
        Action.invoke_handler h e.data
            (decide (e.hvx_type = BLEGattHVXType.indication)) ∈
          ((c.subscribe h p).1.on_indication_notification e).2) := by
  have hreg : (c.subscribe h p).1.notification_handlers =
      c.notification_handlers ++ [h] := by
    unfold GattcCharacteristic.subscribe
    simp [hs]
    cases hc : c.cccd_attr <;> simp
  have hstate : (c.subscribe h p).1 =
      { c with notification_handlers := c.notification_handlers ++ [h] } := by
    unfold GattcCharacteristic.subscribe
    simp [hs]
    cases hc : c.cccd_attr <;> simp
  refine ⟨hreg, ?_, ?_⟩
  · intro cccd hc
    unfold GattcCharacteristic.subscribe
    simp [hs, hc]
  · intro e hconn hattr
    rw [hstate]
    unfold GattcCharacteristic.on_indication_notification
    simp [hconn, hattr]

/-- C3 witness: subscribing handler 7 on the battery characteristic
registers it, issues the CCCD write, and the racing notification event is
still dispatched to handler 7. -/
theorem claim_C3_witness :
    (battery_char.subscribe 7 false).1.notification_handlers = [7]
    ∧ (∃ d, (battery_char.subscribe 7 false).2 =
        .ok [Action.transport_write 12 d true])
    ∧ Action.invoke_handler 7 [60] false ∈
        ((battery_char.subscribe 7 false).1.on_indication_notification
          notif_event).2 := by
  have h := claim_C3 battery_char 7 false (by decide)
  refine ⟨h.1, ?_, ?_⟩
  · obtain ⟨d, hd⟩ := h.2.1 battery_cccd_attr rfl
    exact ⟨d, hd⟩
  · exact h.2.2 notif_event (by decide) (by decide)

/-- C4: on a subscribable characteristic with a CCCD attribute, unsubscribe
issues a CCCD write of the NOT_SUBSCRIBED encoding [0, 0] and returns with
the handler list empty, independent of the write outcome; every event
processed afterwards invokes zero handlers. -/
theorem claim_C4 (c : GattcCharacteristic) (cccd : GattcAttribute)
    (hs : c.subscribable = true) (hc : c.cccd_attr = some cccd) :
    ((c.unsubscribe).2 =
        .ok [Action.transport_write cccd.handle [0, 0] true])
    ∧ ((c.unsubscribe).1.notification_handlers = [])
    ∧ (∀ (e : HvxEvent) (i : Nat) (d : List Nat) (b : Bool),
        Action.invoke_handler i d b ∉
          ((c.unsubscribe).1.on_indication_notification e).2) := by
  have hstate : (c.unsubscribe).1 = { c with notification_handlers := [] } := by
    unfold GattcCharacteristic.unsubscribe
    simp [hs, hc]
  refine ⟨?_, ?_, ?_⟩
  · unfold GattcCharacteristic.unsubscribe
    simp [hs, hc]
    rfl
  · rw [hstate]
  · intro e i d b
    rw [hstate]
    unfold GattcCharacteristic.on_indication_notification
    split
    · simp
    · simp

/-- C4 witness: unsubscribing the subscribed battery characteristic writes
[0, 0] to handle 12, empties the handler list, and the subsequent
notification event invokes no handler. -/
theorem claim_C4_witness :
    (subscribed_battery_char.unsubscribe).2 =
      .ok [Action.transport_write 12 [0, 0] true]
    ∧ (subscribed_battery_char.unsubscribe).1.notification_handlers = []
    ∧ Action.invoke_handler 7 [60] false ∉
        ((subscribed_battery_char.unsubscribe).1.on_indication_notification
          notif_event).2 := by
  have h := claim_C4 subscribed_battery_char battery_cccd_attr (by decide) rfl
  exact ⟨h.1, h.2.1, h.2.2 notif_event 7 [60] false⟩

/-- C5: on a subscribable characteristic with a CCCD attribute, subscribe
writes the INDICATION encoding [2, 0] exactly when (prefer_indications and
the indicate property) or the notify property is not set; otherwise it
writes the NOTIFY encoding [1, 0]. -/
theorem claim_C5 (c : GattcCharacteristic) (h : Nat) (p : Bool)
    (cccd : GattcAttribute)
    (hs : c.subscribable = true) (hc : c.cccd_attr = some cccd) :
    ((c.subscribe h p).2 =
        .ok [Action.transport_write cccd.handle [2, 0] true]
      ↔ ((p = true ∧ c.properties.indicate = true) ∨
          c.properties.notify = false))
    ∧ (¬((p = true ∧ c.properties.indicate = true) ∨
          c.properties.notify = false) →
        (c.subscribe h p).2 =
          .ok [Action.transport_write cccd.handle [1, 0] true]) := by
  unfold GattcCharacteristic.subscribe
  simp [hs, hc]
  cases p <;> cases hi : c.properties.indicate <;>
    cases hn : c.properties.notify <;>
    simp [SubscriptionState.to_buffer]

/-- C5 witness: with indicate=true, notify=false and
prefer_indications=false, subscribe still selects INDICATION, writing
[0x02, 0x00]; on the notify-only battery characteristic it writes
[0x01, 0x00]. -/
theorem claim_C5_witness :
    (indicate_only_char.subscribe 7 false).2 =
      .ok [Action.transport_write 12 [2, 0] true]
    ∧ (battery_char.subscribe 7 false).2 =
      .ok [Action.transport_write 12 [1, 0] true] := by
  have h1 := claim_C5 indicate_only_char 7 false battery_cccd_attr
    (by decide) rfl
  have h2 := claim_C5 battery_char 7 false battery_cccd_attr
    (by decide) rfl
  exact ⟨h1.1.mpr (Or.inr (by decide)), h2.2 (by decide)⟩

/-- C6 counterexample: a notify-capable characteristic discovered without a
CCCD attribute does not fail subscribe with InvalidOperation — the failure
is the None-attribute access error from `self._cccd_attr.write`, a distinct
error kind.  This refutes the claim that every characteristic without a
CCCD attribute fails subscribe with InvalidOperation. -/
theorem claim_C6_counterexample :
    no_cccd_char.cccd_attr = none
    ∧ no_cccd_char.subscribable = true
    ∧ (no_cccd_char.subscribe 0 false).2 = .error GattcError.noneTypeError
    ∧ GattcError.noneTypeError ≠ GattcError.invalidOperation := by
  refine ⟨rfl, by decide, rfl, by decide⟩

/-- C6 amended: subscribe fails with InvalidOperation exactly when neither
notify nor indicate is set; a characteristic with notify or indicate set
but no CCCD attribute still fails at call time and issues no CCCD write,
but with a None-attribute access error rather than InvalidOperation. -/
theorem claim_C6_amended (c : GattcCharacteristic) (h : Nat) (p : Bool) :
    ((c.subscribe h p).2 = .error GattcError.invalidOperation
      ↔ (c.properties.notify = false ∧ c.properties.indicate = false))
    ∧ (c.subscribable = true → c.cccd_attr = none →
        (c.subscribe h p).2 = .error GattcError.noneTypeError
        ∧ ∀ acts, (c.subscribe h p).2 ≠ .ok acts) := by
  constructor
  · unfold GattcCharacteristic.subscribe
    cases hn : c.properties.notify <;> cases hi : c.properties.indicate <;>
      simp [GattcCharacteristic.subscribable, hn, hi] <;>
      cases hc : c.cccd_attr <;> simp
  · intro hs hc
    unfold GattcCharacteristic.subscribe
    simp [hs, hc]

/-- C6 amended witness: the read-only characteristic fails with
InvalidOperation; the CCCD-less notify characteristic fails with the
None-attribute error. -/
theorem claim_C6_amended_witness :
    (read_only_char.subscribe 0 false).2 = .error GattcError.invalidOperation
    ∧ (no_cccd_char.subscribe 0 false).2 = .error GattcError.noneTypeError := by
  have h1 := claim_C6_amended read_only_char 0 false
  have h2 := claim_C6_amended no_cccd_char 0 false
  exact ⟨h1.1.mpr (by decide), (h2.2 (by decide) rfl).1⟩

/-- C7: read fails synchronously with InvalidOperation exactly when the
read property is clear, and otherwise issues a transport read of the value
attribute; write fails exactly when the write property is clear, and
otherwise issues a with-response transport write of the data; write without
response fails exactly when the write-no-response property is clear, and
otherwise issues a without-response transport write — with no size limit on
the data in either write path. -/
theorem claim_C7 (c : GattcCharacteristic) (data : List Nat) :
    ((c.read).2 = .error GattcError.invalidOperation ↔
      c.properties.read = false)
    ∧ (c.properties.read = true →
        (c.read).2 = .ok [Action.transport_read c.value_attr.handle])
    ∧ ((c.write data).2 = .error GattcError.invalidOperation ↔
        c.properties.write = false)
    ∧ (c.properties.write = true →
        (c.write data).2 =
          .ok [Action.transport_write c.value_attr.handle data true])
    ∧ ((c.write_without_response data).2 = .error GattcError.invalidOperation ↔
        c.properties.write_no_response = false)
    ∧ (c.properties.write_no_response = true →
        (c.write_without_response data).2 =
          .ok [Action.transport_write c.value_attr.handle data false]) := by
  refine ⟨?_, ?_, ?_, ?_, ?_, ?_⟩ <;>
    first
    | (cases hr : c.properties.read <;>
        simp [GattcCharacteristic.read, GattcCharacteristic.readable, hr])
    | (cases hw : c.properties.write <;>
        simp [GattcCharacteristic.write, GattcCharacteristic.writable, hw])
    | (cases hw : c.properties.write_no_response <;>
        simp [GattcCharacteristic.write_without_response,
          GattcCharacteristic.writable_without_response, hw])

/-- C7 witness: the readable, non-writable battery characteristic issues
the transport read of handle 11 and rejects both write paths, even for a
payload far larger than any MTU. -/
theorem claim_C7_witness :
    (battery_char.read).2 = .ok [Action.transport_read 11]
    ∧ (battery_char.write [1, 2, 3]).2 = .error GattcError.invalidOperation
    ∧ (battery_char.write_without_response (List.replicate 1000 0)).2 =
        .error GattcError.invalidOperation := by
  have h1 := claim_C7 battery_char [1, 2, 3]
  have h2 := claim_C7 battery_char (List.replicate 1000 0)
  exact ⟨h1.2.1 (by decide), h1.2.2.1.mpr (by decide),
    h2.2.2.2.2.1.mpr (by decide)⟩

/-- C8: a 16-bit UUID and the 128-bit UUID obtained by expanding it with
the Bluetooth base UUID compare equal (in both directions), regardless of
their descriptions; Uuid values are immutable structures, so equality is
fixed at construction. -/
theorem claim_C8 (x : Nat) (d d2 : Option String) (_hx : x < 2 ^ 16) :
    uuid_eq (Uuid.uuid16 x d) (Uuid.uuid128 (expand_with_base x) d2) = true
    ∧ uuid_eq (Uuid.uuid128 (expand_with_base x) d2) (Uuid.uuid16 x d) = true := by
  constructor <;> simp [uuid_eq, Uuid.normalized, expand_with_base]

/-- C8 witness: the 16-bit battery-level UUID 0x2A19 equals its 128-bit
Bluetooth-base expansion 00002A19-0000-1000-8000-00805F9B34FB. -/
theorem claim_C8_witness :
    uuid_eq (Uuid.uuid16 0x2A19 none)
      (Uuid.uuid128 (expand_with_base 0x2A19) none) = true
    ∧ uuid_eq (Uuid.uuid128 (expand_with_base 0x2A19) none)
      (Uuid.uuid16 0x2A19 none) = true :=
  claim_C8 0x2A19 none none (by decide)

/-- C9: find_service, find_characteristic and find_descriptor are linear
scans returning the first element whose UUID equals the given UUID; when no
element matches they return None.  All three are total functions into
Option — absence is a None result, never an error. -/
theorem claim_C9 (db : GattcDatabase) (c : GattcCharacteristic) (u : Uuid) :
    (db.find_service u = none ↔
      ∀ s ∈ db.services, uuid_eq s.uuid u = false)
    ∧ (∀ s, db.find_service u = some s → uuid_eq s.uuid u = true ∧
        ∃ l₁ l₂, db.services = l₁ ++ s :: l₂ ∧
          ∀ t ∈ l₁, uuid_eq t.uuid u = false)
    ∧ (db.find_characteristic u = none ↔
        ∀ x ∈ db.iter_characteristics, uuid_eq x.uuid u = false)
    ∧ (∀ x, db.find_characteristic u = some x → uuid_eq x.uuid u = true ∧
        ∃ l₁ l₂, db.iter_characteristics = l₁ ++ x :: l₂ ∧
          ∀ y ∈ l₁, uuid_eq y.uuid u = false)
    ∧ (c.find_descriptor u = none ↔
        ∀ a ∈ c.attributes, uuid_eq a.uuid u = false)
    ∧ (∀ a, c.find_descriptor u = some a → uuid_eq a.uuid u = true ∧
        ∃ l₁ l₂, c.attributes = l₁ ++ a :: l₂ ∧
          ∀ b ∈ l₁, uuid_eq b.uuid u = false) := by
  refine ⟨?_, ?_, ?_, ?_, ?_, ?_⟩
  · simp [GattcDatabase.find_service, List.find?_eq_none]
  · intro s hfind
    exact find_q_first _ _ _ hfind
  · simp [GattcDatabase.find_characteristic, List.find?_eq_none]
  · intro x hfind
    exact find_q_first _ _ _ hfind
  · simp [GattcCharacteristic.find_descriptor, List.find?_eq_none]
  · intro a hfind
    exact find_q_first _ _ _ hfind

/-- C9 witness: on the battery database, find_characteristic for 0x2A19
returns the battery characteristic with nothing unmatched before it, and
find_service for an absent UUID returns None. -/
theorem claim_C9_witness :
    (uuid_eq battery_char.uuid battery_uuid = true ∧
      ∃ l₁ l₂, battery_db.iter_characteristics = l₁ ++ battery_char :: l₂ ∧
        ∀ y ∈ l₁, uuid_eq y.uuid battery_uuid = false)
    ∧ (battery_db.find_service (Uuid.uuid16 0x1800 none) = none ↔
        ∀ s ∈ battery_db.services,
          uuid_eq s.uuid (Uuid.uuid16 0x1800 none) = false) := by
  have h1 := claim_C9 battery_db battery_char battery_uuid
  have h2 := claim_C9 battery_db battery_char (Uuid.uuid16 0x1800 none)
  exact ⟨h1.2.2.2.1 battery_char (by decide), h2.1⟩

/-- C10: after a successful unsubscribe on a subscribable characteristic
with a CCCD attribute, a matching inbound event still updates the cached
value, an indication is still confirmed to the transport, yet zero handlers
are invoked; and unsubscribe on a characteristic with neither notify nor
indicate raises InvalidOperation without issuing a CCCD write. -/
theorem claim_C10 (c c2 : GattcCharacteristic) (cccd : GattcAttribute)
    (e : HvxEvent)
    (hs : c.subscribable = true) (hc : c.cccd_attr = some cccd)
    (hconn : e.conn_handle = c.conn_handle)
    (hattr : e.attr_handle = c.value_attr.handle)
    (hns : c2.subscribable = false) :
    (((c.unsubscribe).1.on_indication_notification e).1.value_attr.value =
        e.data)
    ∧ (e.hvx_type = BLEGattHVXType.indication →
        Action.hv_confirm e.conn_handle e.attr_handle ∈
          ((c.unsubscribe).1.on_indication_notification e).2)
    ∧ (∀ i d b, Action.invoke_handler i d b ∉
        ((c.unsubscribe).1.on_indication_notification e).2)
    ∧ (c2.unsubscribe = (c2, .error GattcError.invalidOperation)) := by
  have hstate : (c.unsubscribe).1 = { c with notification_handlers := [] } := by
    unfold GattcCharacteristic.unsubscribe
    simp [hs, hc]
  refine ⟨?_, ?_, ?_, ?_⟩
  · rw [hstate]
    unfold GattcCharacteristic.on_indication_notification
    simp [hconn, hattr]
  · intro hind
    rw [hstate]
    unfold GattcCharacteristic.on_indication_notification
    simp [hconn, hattr, hind]
  · intro i d b
    rw [hstate]
    unfold GattcCharacteristic.on_indication_notification
    split
    · simp
    · simp
  · unfold GattcCharacteristic.unsubscribe
    simp [hns]

/-- C10 witness: after unsubscribing the subscribed battery characteristic,
the indication event still updates the value to [60] and is confirmed,
with no handler invoked; unsubscribe on the read-only characteristic fails
with InvalidOperation. -/
theorem claim_C10_witness :
    (((subscribed_battery_char.unsubscribe).1.on_indication_notification
        ind_event).1.value_attr.value = [60])
    ∧ Action.hv_confirm 0 11 ∈
        ((subscribed_battery_char.unsubscribe).1.on_indication_notification
          ind_event).2
    ∧ Action.invoke_handler 7 [60] true ∉
        ((subscribed_battery_char.unsubscribe).1.on_indication_notification
          ind_event).2
    ∧ read_only_char.unsubscribe =
        (read_only_char, .error GattcError.invalidOperation) := by
  have h := claim_C10 subscribed_battery_char read_only_char
    battery_cccd_attr ind_event (by decide) rfl (by decide) (by decide)
    (by decide)
  exact ⟨h.1, h.2.1 (by decide), h.2.2.1 7 [60] true, h.2.2.2⟩

end Blatann
